import Mathlib

/-!
A verification development for the AIPhoneAtHome real-time phone-audio
pipeline.  Each Python component relevant to the checked properties is
shallowly embedded as executable Lean definitions: state-carrying objects
become structures with explicit state passing, wall-clock time becomes an
explicit rational `now` parameter, and machine floating-point expressions
whose values are exact at the concrete operands used by the code are
modelled by exact rational arithmetic.
-/

namespace PhoneAI

/-! ## Conversation state machine (`app/conversation/state_machine.py`) -/

/-- The `ConversationState` enum. -/
inductive ConversationState where
  | INITIALIZING
  | LISTENING
  | PROCESSING
  | SPEAKING
  | INTERRUPTED
  | ENDING
  | ENDED
deriving DecidableEq, Repr

open ConversationState

/-- One entry of `state_history`: the dict appended by `transition_to`
(`{'from': ..., 'to': ..., 'timestamp': ..., 'duration': ...}`). -/
structure TransitionRecord where
  src : ConversationState
  dst : ConversationState
  timestamp : ℚ
  duration : ℚ
deriving DecidableEq, Repr

/-- The mutable fields of `ConversationStateMachine` that `transition_to`
reads or writes.  Callbacks are external side effects; the set of states
having a registered callback is carried so the dispatch condition of
`transition_to` is representable. -/
structure ConversationStateMachine where
  call_sid : String
  current_state : ConversationState
  previous_state : Option ConversationState
  state_start_time : ℚ
  state_history : List TransitionRecord
  callback_states : List ConversationState
deriving DecidableEq, Repr

/-- The static `self.transitions` table built in `__init__`. -/
def transitions : ConversationState → List ConversationState
  | INITIALIZING => [LISTENING]
  | LISTENING => [PROCESSING, ENDING]
  | PROCESSING => [SPEAKING, LISTENING]
  | SPEAKING => [LISTENING, INTERRUPTED]
  | INTERRUPTED => [LISTENING]
  | ENDING => [ENDED]
  | ENDED => []

/-- A fresh state machine, as built by `__init__(call_sid)` at time `now`. -/
def ConversationStateMachine.init (call_sid : String) (now : ℚ) :
    ConversationStateMachine :=
  { call_sid := call_sid
    current_state := INITIALIZING
    previous_state := none
    state_start_time := now
    state_history := []
    callback_states := [] }

/-- `ConversationStateMachine.transition_to(new_state)` at wall-clock time
`now`: rejects (returning `false` and leaving the machine untouched) any
target not listed for the current state in the static table; otherwise
appends a transition record, updates `previous_state`, `current_state` and
`state_start_time`, and reports `true`.  The Boolean in the second
component records whether a registered per-state callback was invoked. -/
def ConversationStateMachine.transition_to
    (sm : ConversationStateMachine) (new_state : ConversationState)
    (now : ℚ) : Bool × ConversationStateMachine × Bool :=
  if new_state ∈ transitions sm.current_state then
    (true,
     { sm with
        previous_state := some sm.current_state
        current_state := new_state
        state_start_time := now
        state_history := sm.state_history ++
          [{ src := sm.current_state, dst := new_state,
             timestamp := now, duration := now - sm.state_start_time }] },
     new_state ∈ sm.callback_states)
  else
    (false, sm, false)

/-- `can_transition_to(state)`. -/
def ConversationStateMachine.can_transition_to
    (sm : ConversationStateMachine) (state : ConversationState) : Bool :=
  state ∈ transitions sm.current_state

/-! ## Audio processor (`app/audio/processor.py`) -/

/-- The fields of `AudioProcessor` that `handle_interruption` and the
ingest-cycle transcription trigger read or write.  `output_buffer` is the
outbound deque of TTS chunks; `sent_marks` records the mark names handed
to `websocket_handler.send_mark`; `processed_audio` is the utterance
accumulator, measured in bytes (a `bytearray` holding 16-bit PCM, two
bytes per sample). -/
structure AudioProcessor where
  output_buffer : List (List Int)
  is_speaking : Bool
  sent_marks : List String
  processed_audio_len : Nat
deriving DecidableEq, Repr

/-- `AudioProcessor.handle_interruption`: only when the speaking flag is
set does it clear the output buffer, clear the flag, and send the
`"interrupted"` mark; otherwise it does nothing. -/
def AudioProcessor.handle_interruption (p : AudioProcessor) : AudioProcessor :=
  if p.is_speaking then
    { p with
        output_buffer := []
        is_speaking := false
        sent_marks := p.sent_marks ++ ["interrupted"] }
  else
    p

/-- The ingest-cycle transcription trigger of `_process_input_audio`:
`len(self.processed_audio) >= 16000 * 0.3`.  The float product
`16000 * 0.3` evaluates to exactly `4800.0` in IEEE double precision, so
the comparison is against 4800 (bytes). -/
def shouldTranscribe (accumulatedBytes : Nat) : Bool :=
  4800 ≤ accumulatedBytes

/-- Duration in milliseconds represented by `n` bytes of 16 kHz 16-bit
mono PCM: `n` bytes are `n / 2` samples, at 16 samples per millisecond. -/
def pcm16kDurationMs (n : Nat) : ℚ :=
  (n : ℚ) / 32

/-! ## Turn manager (`app/conversation/turn_manager.py`) -/

/-- Python `str.lower()` restricted to the ASCII range used by the
transcripts and phrase lists. -/
def pyLower (s : String) : List Char :=
  s.toList.map Char.toLower

/-- Python `str.rstrip()`: drop trailing whitespace. -/
def pyRStrip (l : List Char) : List Char :=
  (l.reverse.dropWhile Char.isWhitespace).reverse

/-- A sentence-ending punctuation mark, the character class of the
`re.split(r'[.!?]', transcript)` call in `_check_prosody`. -/
def isSentenceMark (c : Char) : Bool :=
  c = '.' || c = '!' || c = '?'

/-- `re.split(r'[.!?]', transcript)`: split at every sentence-ending
mark, keeping empty segments (as Python's `re.split` does). -/
def splitMarks : List Char → List (List Char)
  | [] => [[]]
  | c :: cs =>
    if isSentenceMark c then [] :: splitMarks cs
    else
      match splitMarks cs with
      | [] => [[c]]
      | s :: rest => (c :: s) :: rest

/-- Number of sentence-ending marks in a transcript. -/
def countSentenceMarks (t : String) : Nat :=
  t.toList.countP isSentenceMark

/-- Whether the first list is an initial segment of the second. -/
def isPrefixList : List Char → List Char → Bool
  | [], _ => true
  | _ :: _, [] => false
  | a :: as, b :: bs => a = b && isPrefixList as bs

/-- Python's substring test `needle in haystack`. -/
def containsSublist (needle : List Char) : List Char → Bool
  | [] => needle.isEmpty
  | c :: cs => isPrefixList needle (c :: cs) || containsSublist needle cs

/-- The `self.turn_end_phrases` list from `TurnManager.__init__`. -/
def turn_end_phrases : List String :=
  ["what do you think", "can you help", "do you know", "tell me",
   "explain", "how about", "what about", "right?", "okay?", "you know?"]

/-- `TurnManager._contains_turn_end`: some phrase occurs as a substring
of the lowercased transcript. -/
def containsTurnEnd (text : String) : Bool :=
  turn_end_phrases.any (fun p => containsSublist p.toList (pyLower text))

/-- The `'?' in transcript` check of `is_turn_complete`. -/
def hasQuestionMark (t : String) : Bool :=
  t.toList.contains '?'

/-- Whether the right-stripped transcript ends with a period
(`transcript.rstrip().endswith('.')`). -/
def endsWithPeriod (t : String) : Bool :=
  match (pyRStrip t.toList).getLast? with
  | some c => c = '.'
  | none => false

/-- `TurnManager._check_prosody`: the transcript, right-stripped, ends
with a period, or splitting at sentence-ending marks yields more than two
segments. -/
def check_prosody (t : String) : Bool :=
  endsWithPeriod t || decide ((splitMarks t.toList).length > 2)

/-- The fields of `TurnManager` read by `is_turn_complete`. -/
structure TurnManager where
  min_speech_duration_ms : ℚ
  max_pause_before_response_ms : ℚ
  speech_start : ℚ
deriving DecidableEq, Repr

/-- A fresh `TurnManager` as built by `__init__` (no recorded speech
start). -/
def TurnManager.init : TurnManager :=
  { min_speech_duration_ms := 300
    max_pause_before_response_ms := 800
    speech_start := 0 }

/-- `TurnManager.is_turn_complete(transcript, silence_duration)` at
wall-clock time `now`: too-short utterances never complete a turn; then
turn-end phrases, a question mark, the silence threshold, and the prosody
heuristic are tried in order. -/
def TurnManager.is_turn_complete (tm : TurnManager) (now : ℚ)
    (transcript : String) (silence_duration : ℚ) : Bool :=
  let silence_ms := silence_duration * 1000
  if tm.speech_start > 0 ∧
      (now - tm.speech_start) * 1000 < tm.min_speech_duration_ms then
    false
  else if containsTurnEnd transcript then true
  else if hasQuestionMark transcript then true
  else if silence_ms > tm.max_pause_before_response_ms then true
  else if check_prosody transcript then true
  else false

/-- A transcript-based turn-ending trigger: an explicit turn-end phrase,
a question mark, or the prosody heuristic. -/
def turnEndTrigger (t : String) : Bool :=
  containsTurnEnd t || hasQuestionMark t || check_prosody t

/-! ## Audio utilities (`app/utils/audio_utils.py`) -/

/-- The `supported_rates` list of `_check_webrtc_vad`. -/
def supported_rates : List Nat := [8000, 16000, 32000, 48000]

/-- Sum of squared samples. -/
def sumSq (audio : List Int) : ℤ :=
  (audio.map (fun x => x * x)).sum

/-- `VoiceActivityDetector._check_energy`:
`sqrt(mean(audio²)) / 32768 > 0.01`.  Both sides being nonnegative, this
is equivalent to `mean(audio²) > (0.01·32768)² = 1073741824/10000`, and
clearing the (positive) denominators gives the integer comparison stated
here; for empty audio `np.mean` yields NaN, the Python comparison is
false, and here `0 < 0` is false as well. -/
def check_energy (audio : List Int) : Bool :=
  decide (1073741824 * (audio.length : ℤ) < 10000 * sumSq audio)

/-- `np.sign` with zeros remapped to `-1`, as `_check_zcr` does. -/
def signAdj (x : Int) : Int :=
  if x > 0 then 1 else -1

/-- Number of adjacent sample pairs whose adjusted signs differ
(`len(np.where(np.diff(signs))[0])`). -/
def zcrCount : List Int → Nat
  | [] => 0
  | [_] => 0
  | a :: b :: rest =>
    (if signAdj a = signAdj b then 0 else 1) + zcrCount (b :: rest)

/-- `VoiceActivityDetector._check_zcr`: the zero-crossing rate
`count / len` must stay below 0.1, i.e. `10 · count < len` after
clearing the positive denominator.  (For empty audio Python raises
`ZeroDivisionError`, which `is_speech` catches as "not speech"; here
`10·0 < 0` is false, giving the same overall verdict.) -/
def check_zcr (audio : List Int) : Bool :=
  decide (10 * zcrCount audio < audio.length)

/-- `frame_size = int(sample_rate * frame_duration_ms / 1000)` with
`frame_duration_ms = 20`; exact in floating point at every supported
rate. -/
def frameSize (rate : Nat) : Nat :=
  rate * 20 / 1000

/-- Number of iterations of
`range(0, len(audio_bytes) - frame_size * 2, frame_size * 2)`: zero when
the stop bound is nonpositive, otherwise the ceiling of `stop / step`. -/
def webrtcNumIters (audioBytes fs2 : Nat) : Nat :=
  if audioBytes ≤ fs2 then 0 else (audioBytes - fs2 + fs2 - 1) / fs2

/-- The byte offsets at which `_check_webrtc_vad` slices frames. -/
def webrtcFrameStarts (audioBytes fs2 : Nat) : List Nat :=
  (List.range (webrtcNumIters audioBytes fs2)).map (fun i => i * fs2)

/-- `VoiceActivityDetector._check_webrtc_vad` for audio of
`audioLen` int16 samples (`2 * audioLen` bytes): unsupported rates pass;
otherwise each 20 ms frame is classified by the external `webrtcvad`
engine — modelled by `oracle`, where `none` is a classification
exception skipped by the bare `except` — and the audio is speech when
classified frames exist and `num_speech / num_frames > 0.3`, stated with
the positive denominator cleared. -/
def check_webrtc_vad (oracle : Nat → Option Bool)
    (audioLen rate : Nat) : Bool :=
  if rate ∈ supported_rates then
    let fs2 := 2 * frameSize rate
    let results := (webrtcFrameStarts (2 * audioLen) fs2).filterMap oracle
    let num_frames := results.length
    let num_speech := (results.filter id).length
    if num_frames > 0 then
      decide (3 * num_frames < 10 * num_speech)
    else false
  else true

/-- `VoiceActivityDetector.is_speech(audio, sample_rate)`: the energy,
zero-crossing and WebRTC tiers in order, each short-circuiting to "not
speech". -/
def VoiceActivityDetector.is_speech (oracle : Nat → Option Bool)
    (audio : List Int) (rate : Nat) : Bool :=
  if !check_energy audio then false
  else if !check_zcr audio then false
  else check_webrtc_vad oracle audio.length rate

/-! ## Echo cancellation (`app/audio/echo_cancellation.py`) -/

/-- A numpy array sample type, as far as the checked properties need
it. -/
inductive Dtype where
  | int16
  | float32
  | float64
deriving DecidableEq, Repr

/-- The shape-and-type view of a numpy audio array. -/
structure NpArray where
  len : Nat
  dtype : Dtype
deriving DecidableEq, Repr

/-- Number of time segments returned by `scipy.signal.stft` at the
settings used by `_spectral_subtraction` (`nperseg=256`, hence
`noverlap=128` and step 128, `boundary='zeros'`, `padded=True`), for
inputs of `n ≥ 256` samples, where no `nperseg` clamping occurs: the
input is extended by 128 zeros at each end, then zero-padded with
`nadd = (-n) mod 128` zeros so segments tile it exactly. -/
def stftNumSegments (n : Nat) : Nat :=
  (n + (128 - n % 128) % 128) / 128 + 1

/-- Output length of `scipy.signal.istft` at the matching settings:
`k` segments reconstruct `(k-1)*128 + 256` samples, and the 128-sample
boundary extension is trimmed from each end. -/
def istftLen (k : Nat) : Nat :=
  (k - 1) * 128

/-- Length of the array produced by
`EchoCanceller._spectral_subtraction` for an input of `n ≥ 256`
samples: the round trip through `stft`/`istft` with `nperseg=256`. -/
def spectralSubtractionLen (n : Nat) : Nat :=
  istftLen (stftNumSegments n)

/-- `EchoCanceller.process(audio)` with no reference signal: the input
is scaled to float and passed through `_spectral_subtraction`, whose
result is cast back with `.astype(np.int16)`.  For inputs shorter than
256 samples scipy's `stft` clamps `nperseg` to the input length, the
mismatched `istft(..., nperseg=256)` then raises (its `nfft`, derived
from the frequency-bin count, falls below 256), and the `try/except` in
`process` returns the original input unchanged. -/
def EchoCanceller.process_noref (audio : NpArray) : NpArray :=
  if audio.len < 256 then audio
  else { len := spectralSubtractionLen audio.len, dtype := Dtype.int16 }

/-! ## Interruption handler (`app/conversation/interruption.py`) -/

/-- Python `str.strip()`: drop whitespace at both ends. -/
def pyStrip (l : List Char) : List Char :=
  pyRStrip (l.dropWhile Char.isWhitespace)

/-- Helper for `wordCount`: number of words remaining, given whether the
scan is currently inside a word. -/
def countWordsAux : List Char → Bool → Nat
  | [], _ => 0
  | c :: cs, inWord =>
    if c.isWhitespace then countWordsAux cs false
    else (if inWord then 0 else 1) + countWordsAux cs true

/-- `len(s.split())` in Python: the number of maximal whitespace-free
runs. -/
def wordCount (l : List Char) : Nat :=
  countWordsAux l false

/-- The `self.backchannel_patterns` list from
`InterruptionHandler.__init__`. -/
def backchannel_patterns : List String :=
  ["uh huh", "mm hmm", "yeah", "okay", "right", "sure", "yes", "no", "hmm"]

/-- `text.lower().strip()` as computed by `_is_backchannel`. -/
def normalizedText (text : String) : List Char :=
  pyStrip (pyLower text)

/-- `InterruptionHandler._is_backchannel`: empty text is not a
backchannel; more than three words is not a backchannel; otherwise the
lowercased, stripped text must equal a pattern exactly, with or without a
trailing period. -/
def is_backchannel (text : String) : Bool :=
  if text = "" then false
  else
    let t := normalizedText text
    if wordCount t > 3 then false
    else backchannel_patterns.any
      (fun p => decide (t = p.toList) || decide (t = p.toList ++ ['.']))

/-- One entry of `interruption_history`: the dict appended by
`detect_interruption`. -/
structure InterruptionRecord where
  timestamp : ℚ
  transcript : String
  assistant_speech_duration : ℚ
deriving DecidableEq, Repr

/-- `deque(maxlen=10).append`: append on the right, evicting from the
left when the capacity of ten is exceeded. -/
def pushBounded (l : List InterruptionRecord) (r : InterruptionRecord) :
    List InterruptionRecord :=
  let l2 := l ++ [r]
  if l2.length > 10 then l2.drop (l2.length - 10) else l2

/-- The fields of `InterruptionHandler` read or written by
`detect_interruption`. -/
structure InterruptionHandler where
  is_assistant_speaking : Bool
  speech_start_time : ℚ
  interruption_history : List InterruptionRecord
deriving DecidableEq, Repr

/-- `InterruptionHandler.detect_interruption(user_transcript,
user_speaking)` at wall-clock time `now`, with the
`enable_backchannel_detection` setting passed explicitly: returns `false`
when the assistant or the user is not speaking, filters backchannels when
enabled, and otherwise records the interruption and returns `true`. -/
def InterruptionHandler.detect_interruption (h : InterruptionHandler)
    (user_transcript : String) (user_speaking : Bool)
    (enable_backchannel_detection : Bool) (now : ℚ) :
    Bool × InterruptionHandler :=
  if !h.is_assistant_speaking then (false, h)
  else if !user_speaking then (false, h)
  else if enable_backchannel_detection && is_backchannel user_transcript then
    (false, h)
  else
    (true,
     { h with
        interruption_history :=
          pushBounded h.interruption_history
            { timestamp := now, transcript := user_transcript,
              assistant_speech_duration := now - h.speech_start_time } })

/-- The spec's characterisation of a backchannel, for comparison with
`is_backchannel`: at most three words, and the lowercased, stripped text
equals one of the fixed phrases with or without a trailing period. -/
def backchannelSpec (t : String) : Bool :=
  decide (wordCount (normalizedText t) ≤ 3) &&
  backchannel_patterns.any
    (fun p => decide (normalizedText t = p.toList) ||
              decide (normalizedText t = p.toList ++ ['.']))

/-! ## Context manager (`app/llm/context_manager.py`) -/

/-- One conversation turn, the dict appended by `add_turn`. -/
structure Turn where
  user : String
  assistant : String
  timestamp : ℚ
  turn_number : Nat
deriving DecidableEq, Repr

/-- A per-call context, the dict built by `_create_context` (metadata
values are arbitrary payloads, modelled as strings). -/
structure Context where
  call_sid : Option String
  start_time : ℚ
  history : List Turn
  metadata : List (String × String)
  turn_count : Nat
deriving DecidableEq, Repr

/-- Lookup in an association list modelling a Python dict. -/
def findAssoc {β : Type} : List (String × β) → String → Option β
  | [], _ => none
  | (k, v) :: rest, sid => if k = sid then some v else findAssoc rest sid

/-- Write to an association list modelling a Python dict: replace the
key's binding if present, else append. -/
def setAssoc {β : Type} : List (String × β) → String → β → List (String × β)
  | [], sid, v => [(sid, v)]
  | (k, v0) :: rest, sid, v =>
    if k = sid then (sid, v) :: rest else (k, v0) :: setAssoc rest sid v

/-- `del d[key]` on an association list modelling a Python dict (keys are
unique, so removing every binding of the key is exact). -/
def delAssoc {β : Type} (l : List (String × β)) (sid : String) :
    List (String × β) :=
  l.filter (fun p => decide (p.1 ≠ sid))

/-- `_create_context()` at wall-clock time `now`. -/
def createContext (now : ℚ) : Context :=
  { call_sid := none
    start_time := now
    history := []
    metadata := []
    turn_count := 0 }

/-- `deque(maxlen=10).append` for the turn ring. -/
def pushTurn (l : List Turn) (t : Turn) : List Turn :=
  let l2 := l ++ [t]
  if l2.length > 10 then l2.drop (l2.length - 10) else l2

/-- The `self.contexts` defaultdict of `ContextManager`. -/
structure ContextManager where
  contexts : List (String × Context)
deriving DecidableEq, Repr

/-- `ContextManager.get_context(call_sid)` at time `now`: a missing id
makes the defaultdict build `_create_context()` and `get_context` then
stores the id in its `call_sid` field; an existing id is returned
untouched. -/
def ContextManager.get_context (cm : ContextManager) (sid : String)
    (now : ℚ) : Context × ContextManager :=
  match findAssoc cm.contexts sid with
  | some c => (c, cm)
  | none =>
    let c := { createContext now with call_sid := some sid }
    (c, { contexts := setAssoc cm.contexts sid c })

/-- `ContextManager.add_turn(call_sid, user_input, assistant_response)`
at time `now`. -/
def ContextManager.add_turn (cm : ContextManager) (sid : String)
    (user_input assistant_response : String) (now : ℚ) : ContextManager :=
  let (c, cm1) := cm.get_context sid now
  let turn : Turn :=
    { user := user_input, assistant := assistant_response,
      timestamp := now, turn_number := c.turn_count }
  { contexts :=
      setAssoc cm1.contexts sid
        { c with history := pushTurn c.history turn,
                 turn_count := c.turn_count + 1 } }

/-- `ContextManager.update_metadata(call_sid, key, value)` at time
`now`. -/
def ContextManager.update_metadata (cm : ContextManager) (sid : String)
    (key value : String) (now : ℚ) : ContextManager :=
  let (c, cm1) := cm.get_context sid now
  { contexts :=
      setAssoc cm1.contexts sid
        { c with metadata := setAssoc c.metadata key value } }

/-- The dict returned by `ContextManager.get_summary`. -/
structure Summary where
  call_sid : String
  duration_seconds : ℚ
  turn_count : Nat
  start_time : ℚ
  metadata : List (String × String)
deriving DecidableEq, Repr

/-- `ContextManager.get_summary(call_sid)` at time `now`; like every
accessor it goes through `get_context`, so it too can create the
context. -/
def ContextManager.get_summary (cm : ContextManager) (sid : String)
    (now : ℚ) : Summary × ContextManager :=
  let (c, cm1) := cm.get_context sid now
  ({ call_sid := sid
     duration_seconds := now - c.start_time
     turn_count := c.turn_count
     start_time := c.start_time
     metadata := c.metadata }, cm1)

/-- `ContextManager.clear_context(call_sid)`: deletes the id's context
if present. -/
def ContextManager.clear_context (cm : ContextManager) (sid : String) :
    ContextManager :=
  { contexts := delAssoc cm.contexts sid }

end PhoneAI

namespace PhoneAI

open ConversationState

/-- C1: `transition_to` succeeds exactly on the edges of the static table;
a rejected request returns `False` and leaves the current state, the
state-entry timestamp and the transition history unchanged; from
`INITIALIZING` only `LISTENING` is accepted. -/
theorem transition_to_table_correct
    (sm : ConversationStateMachine) (ns : ConversationState) (now : ℚ) :
    ((sm.transition_to ns now).1 = true ↔ ns ∈ transitions sm.current_state) ∧
    ((sm.transition_to ns now).1 = false →
      (sm.transition_to ns now).2.1.current_state = sm.current_state ∧
      (sm.transition_to ns now).2.1.state_start_time = sm.state_start_time ∧
      (sm.transition_to ns now).2.1.state_history = sm.state_history) ∧
    (sm.current_state = INITIALIZING →
      ((sm.transition_to ns now).1 = true ↔ ns = LISTENING)) := by
  unfold ConversationStateMachine.transition_to
  by_cases h : ns ∈ transitions sm.current_state
  · refine ⟨by simp [h], by simp [h], ?_⟩
    intro hinit
    rw [hinit] at h
    simp only [transitions, List.mem_singleton] at h
    simp [h, hinit, transitions]
  · refine ⟨by simp [h], by simp [h], ?_⟩
    intro hinit
    rw [hinit] at h
    simp only [transitions, List.mem_singleton] at h
    simp [h, hinit, transitions]

/-- Witness for C1: at a freshly initialised machine, a `PROCESSING`
request is rejected and the state stays `INITIALIZING`, while a
`LISTENING` request is accepted. -/
theorem transition_to_table_correct_witness :
    (((ConversationStateMachine.init "CA1" 0).transition_to PROCESSING 1).1
        = false ∧
     ((ConversationStateMachine.init "CA1" 0).transition_to PROCESSING 1).2.1.current_state
        = INITIALIZING) ∧
    ((ConversationStateMachine.init "CA1" 0).transition_to LISTENING 1).1
        = true := by
  have h := transition_to_table_correct
    (ConversationStateMachine.init "CA1" 0) PROCESSING 1
  have h2 := transition_to_table_correct
    (ConversationStateMachine.init "CA1" 0) LISTENING 1
  refine ⟨⟨?_, ?_⟩, ?_⟩
  · have := (h.2.2 rfl)
    by_cases hb : ((ConversationStateMachine.init "CA1" 0).transition_to PROCESSING 1).1 = true
    · exact absurd (this.mp hb) (by decide)
    · simpa using hb
  · have hfalse : ((ConversationStateMachine.init "CA1" 0).transition_to PROCESSING 1).1 = false := by
      by_cases hb : ((ConversationStateMachine.init "CA1" 0).transition_to PROCESSING 1).1 = true
      · exact absurd ((h.2.2 rfl).mp hb) (by decide)
      · simpa using hb
    exact ((h.2.1) hfalse).1
  · exact (h2.2.2 rfl).mpr rfl

/-- C2 counterexample: with the speaking flag clear and a non-empty
outbound queue, `handle_interruption` neither empties the queue nor sends
the `"interrupted"` mark, so the claim's "regardless of whether the
speaking flag was set" is false. -/
theorem handle_interruption_claim_counterexample :
    ¬ ((AudioProcessor.handle_interruption
          { output_buffer := [[1]], is_speaking := false,
            sent_marks := [], processed_audio_len := 0 }).output_buffer = [] ∧
       (AudioProcessor.handle_interruption
          { output_buffer := [[1]], is_speaking := false,
            sent_marks := [], processed_audio_len := 0 }).sent_marks
          = ["interrupted"]) := by
  decide

/-- C2 amended: when the speaking flag is set, `handle_interruption`
empties the outbound queue, clears the flag and sends the `"interrupted"`
mark; when the flag is clear it leaves the processor untouched. -/
theorem handle_interruption_guarded (p : AudioProcessor) :
    (p.is_speaking = true →
      p.handle_interruption.output_buffer = [] ∧
      p.handle_interruption.is_speaking = false ∧
      p.handle_interruption.sent_marks = p.sent_marks ++ ["interrupted"]) ∧
    (p.is_speaking = false → p.handle_interruption = p) := by
  unfold AudioProcessor.handle_interruption
  by_cases h : p.is_speaking <;> simp [h]

/-- Witness for C2's amended theorem at a concrete speaking processor. -/
theorem handle_interruption_guarded_witness :
    (AudioProcessor.handle_interruption
        { output_buffer := [[1], [2]], is_speaking := true,
          sent_marks := [], processed_audio_len := 0 }).output_buffer = [] ∧
    (AudioProcessor.handle_interruption
        { output_buffer := [[1], [2]], is_speaking := true,
          sent_marks := [], processed_audio_len := 0 }).sent_marks
        = ["interrupted"] := by
  have h := (handle_interruption_guarded
      { output_buffer := [[1], [2]], is_speaking := true,
        sent_marks := [], processed_audio_len := 0 }).1 rfl
  exact ⟨h.1, h.2.2⟩

/-- `splitMarks` produces one more segment than there are sentence-ending
marks. -/
theorem splitMarks_length (l : List Char) :
    (splitMarks l).length = l.countP isSentenceMark + 1 := by
  induction l with
  | nil => simp [splitMarks]
  | cons c cs ih =>
    by_cases h : isSentenceMark c
    · simp [splitMarks, h, List.countP_cons, ih]
    · cases hs : splitMarks cs with
      | nil => rw [hs] at ih; simp at ih
      | cons s rest =>
        rw [hs] at ih
        simp only [splitMarks, h, if_false, Bool.false_eq_true, hs,
          List.length_cons, List.countP_cons] at *
        omega

/-- With no recorded speech start, `is_turn_complete` is the disjunction
of the phrase check, the question-mark check, the silence threshold and
the prosody heuristic. -/
theorem is_turn_complete_init_eq (now : ℚ) (t : String) (s : ℚ) :
    TurnManager.init.is_turn_complete now t s =
      (containsTurnEnd t || (hasQuestionMark t ||
        (decide (s * 1000 > 800) || check_prosody t))) := by
  unfold TurnManager.is_turn_complete TurnManager.init
  simp only
  have h0 : ¬((0:ℚ) > 0 ∧ (now - 0) * 1000 < 300) := by
    intro h; exact absurd h.1 (by norm_num)
  rw [if_neg h0]
  by_cases h1 : containsTurnEnd t <;> by_cases h2 : hasQuestionMark t <;>
    by_cases h3 : s * 1000 > (800:ℚ) <;> by_cases h4 : check_prosody t <;>
      simp [h1, h2, h3, h4]

/-- C4: the three documented examples of `is_turn_complete` with default
thresholds and no recorded speech start, and, for every transcript
exhibiting no turn-ending trigger, completion holds exactly when the
silence duration (in ms) exceeds 800. -/
theorem is_turn_complete_spec (now : ℚ) :
    TurnManager.init.is_turn_complete now "What is your name?" (1/2) = true ∧
    TurnManager.init.is_turn_complete now "Hello" (1/5) = false ∧
    TurnManager.init.is_turn_complete now "Hello" 1 = true ∧
    (∀ (t : String) (s : ℚ), turnEndTrigger t = false →
      (TurnManager.init.is_turn_complete now t s = true ↔ s * 1000 > 800)) := by
  refine ⟨?_, ?_, ?_, ?_⟩
  · rw [is_turn_complete_init_eq]
    have : hasQuestionMark "What is your name?" = true := by decide
    simp [this]
  · rw [is_turn_complete_init_eq]
    have h1 : containsTurnEnd "Hello" = false := by decide
    have h2 : hasQuestionMark "Hello" = false := by decide
    have h4 : check_prosody "Hello" = false := by decide
    have h3 : ¬((1/5 : ℚ) * 1000 > 800) := by norm_num
    simp [h1, h2, h3, h4]
    norm_num
  · rw [is_turn_complete_init_eq]
    have h3 : (1 : ℚ) * 1000 > 800 := by norm_num
    simp only [Bool.or_eq_true, decide_eq_true_eq]
    exact Or.inr (Or.inr (Or.inl h3))
  · intro t s htr
    unfold turnEndTrigger at htr
    simp only [Bool.or_eq_false_iff] at htr
    rw [is_turn_complete_init_eq]
    simp [htr.1.1, htr.1.2, htr.2]

/-- Witness for C4: the general silence rule applied at the concrete
transcript `"Hello"` with one second of silence. -/
theorem is_turn_complete_spec_witness :
    TurnManager.init.is_turn_complete 0 "Hello" 1 = true :=
  ((is_turn_complete_spec 0).2.2.2 "Hello" 1 (by decide)).mpr (by norm_num)

/-- C5 counterexample: the transcript `"a! b? c"` has exactly two
sentence-ending marks and does not end with a period, yet the prosody
heuristic fires. -/
theorem check_prosody_claim_counterexample :
    check_prosody "a! b? c" = true ∧
    countSentenceMarks "a! b? c" = 2 ∧
    endsWithPeriod "a! b? c" = false := by
  refine ⟨by decide, by decide, by decide⟩

/-- C5 amended: the prosody heuristic fires exactly when the
right-stripped transcript ends with a period or the transcript contains
at least two sentence-ending punctuation marks. -/
theorem check_prosody_iff (t : String) :
    check_prosody t = (endsWithPeriod t || decide (2 ≤ countSentenceMarks t)) := by
  unfold check_prosody countSentenceMarks
  congr 1
  rw [decide_eq_decide, splitMarks_length]
  omega

/-- C3: the ingest cycle's transcription trigger fires at an accumulator
of 4800 bytes, which is only 150 ms of 16 kHz 16-bit PCM — not the 300 ms
(9600 bytes) stated by the spec and by the code's own `# 300ms` comment. -/
theorem transcription_trigger_fires_at_150ms :
    shouldTranscribe 4800 = true ∧
    pcm16kDurationMs 4800 = 150 ∧
    (150 : ℚ) < 300 ∧
    shouldTranscribe 9599 = true := by
  refine ⟨by decide, ?_, by norm_num, by decide⟩
  unfold pcm16kDurationMs
  norm_num

/-- The code's backchannel test agrees with the spec's characterisation
on every transcript. -/
theorem is_backchannel_eq_spec (t : String) :
    is_backchannel t = backchannelSpec t := by
  by_cases h0 : t = ""
  · subst h0; decide
  · unfold is_backchannel backchannelSpec
    rw [if_neg h0]
    by_cases hw : wordCount (normalizedText t) > 3
    · simp only [hw, if_true]
      have : ¬ (wordCount (normalizedText t) ≤ 3) := by omega
      simp [this]
    · simp only [hw, if_false]
      have : wordCount (normalizedText t) ≤ 3 := by omega
      simp [this]

/-- C6: while the assistant and the caller are both speaking and
backchannel filtering is enabled, `detect_interruption` returns `false`
and leaves the handler untouched exactly when the transcript has at most
three words and, lowercased and stripped, equals one of the fixed phrases
with or without a trailing period; in particular `"okay"` is filtered and
`"wait, stop"` is recorded as an interruption. -/
theorem detect_interruption_backchannel_spec :
    (∀ (h : InterruptionHandler) (t : String) (now : ℚ),
      h.is_assistant_speaking = true →
      (h.detect_interruption t true true now = (false, h) ↔
        backchannelSpec t = true)) ∧
    (∀ (h : InterruptionHandler) (now : ℚ),
      h.is_assistant_speaking = true →
      h.detect_interruption "okay" true true now = (false, h)) ∧
    (∀ (h : InterruptionHandler) (now : ℚ),
      h.is_assistant_speaking = true →
      (h.detect_interruption "wait, stop" true true now).1 = true ∧
      (h.detect_interruption "wait, stop" true true now).2.interruption_history
        = pushBounded h.interruption_history
            { timestamp := now, transcript := "wait, stop",
              assistant_speech_duration := now - h.speech_start_time }) := by
  have key : ∀ (h : InterruptionHandler) (t : String) (now : ℚ),
      h.is_assistant_speaking = true →
      h.detect_interruption t true true now =
        (if is_backchannel t then (false, h)
         else (true,
          { h with
             interruption_history :=
               pushBounded h.interruption_history
                 { timestamp := now, transcript := t,
                   assistant_speech_duration := now - h.speech_start_time } })) := by
    intro h t now hs
    unfold InterruptionHandler.detect_interruption
    simp [hs]
  refine ⟨?_, ?_, ?_⟩
  · intro h t now hs
    rw [key h t now hs, ← is_backchannel_eq_spec]
    by_cases hb : is_backchannel t
    · simp [hb]
    · simp [hb, Prod.ext_iff]
  · intro h now hs
    rw [key h "okay" now hs]
    have : is_backchannel "okay" = true := by decide
    simp [this]
  · intro h now hs
    rw [key h "wait, stop" now hs]
    have : is_backchannel "wait, stop" = false := by decide
    simp [this]

/-- Witness for C6 at a concrete handler: `"okay"` is filtered with the
handler unchanged, and `"wait, stop"` reports an interruption. -/
theorem detect_interruption_backchannel_spec_witness :
    (InterruptionHandler.detect_interruption
        { is_assistant_speaking := true, speech_start_time := 0,
          interruption_history := [] } "okay" true true 5
      = (false,
         { is_assistant_speaking := true, speech_start_time := 0,
           interruption_history := [] })) ∧
    (InterruptionHandler.detect_interruption
        { is_assistant_speaking := true, speech_start_time := 0,
          interruption_history := [] } "wait, stop" true true 5).1 = true := by
  refine ⟨?_, ?_⟩
  · exact detect_interruption_backchannel_spec.2.1
      { is_assistant_speaking := true, speech_start_time := 0,
        interruption_history := [] } 5 rfl
  · exact (detect_interruption_backchannel_spec.2.2
      { is_assistant_speaking := true, speech_start_time := 0,
        interruption_history := [] } 5 rfl).1

/-- C8 counterexample: a 300-sample int16 input comes back from
no-reference echo cancellation with 384 samples, not 300. -/
theorem process_noref_length_counterexample :
    (EchoCanceller.process_noref { len := 300, dtype := Dtype.int16 }).len
      = 384 ∧ (384 : Nat) ≠ 300 := by
  constructor
  · rfl
  · decide

/-- C8 amended: an input shorter than 256 samples makes scipy's
`istft` raise and is returned unchanged; an input of at least 256
samples returns int16 with a length rounded up to the next multiple of
128 (the STFT hop size), equal to the input length exactly when that
length is a multiple of 128. -/
theorem process_noref_length (audio : NpArray) :
    (audio.len < 256 → EchoCanceller.process_noref audio = audio) ∧
    (256 ≤ audio.len →
      (EchoCanceller.process_noref audio).dtype = Dtype.int16 ∧
      (EchoCanceller.process_noref audio).len
        = 128 * ((audio.len + 127) / 128) ∧
      ((EchoCanceller.process_noref audio).len = audio.len ↔
        audio.len % 128 = 0)) := by
  unfold EchoCanceller.process_noref spectralSubtractionLen stftNumSegments
    istftLen
  constructor
  · intro h
    rw [if_pos h]
  · intro h
    rw [if_neg (by omega)]
    refine ⟨rfl, ?_, ?_⟩ <;> simp only <;> omega

/-- Witness for C8's amended theorem: a 100-sample input passes through
unchanged, and a 384-sample input (a multiple of 128) keeps its
length. -/
theorem process_noref_length_witness :
    EchoCanceller.process_noref { len := 100, dtype := Dtype.int16 }
      = { len := 100, dtype := Dtype.int16 } ∧
    (EchoCanceller.process_noref { len := 384, dtype := Dtype.int16 }).len
      = 384 := by
  constructor
  · exact (process_noref_length
      { len := 100, dtype := Dtype.int16 }).1 (by norm_num)
  · exact ((process_noref_length
      { len := 384, dtype := Dtype.int16 }).2 (by norm_num)).2.2.mpr
      (by norm_num)

/-- C9: at a supported sample rate, audio of at most one 20 ms frame
leaves the WebRTC tier with zero classified frames, so `is_speech` is
`false` no matter how the external frame classifier would behave and no
matter what the energy and zero-crossing tiers decide. -/
theorem is_speech_short_audio_false
    (oracle : Nat → Option Bool) (audio : List Int) (rate : Nat)
    (hrate : rate ∈ supported_rates)
    (hlen : audio.length ≤ frameSize rate) :
    VoiceActivityDetector.is_speech oracle audio rate = false := by
  have hiter : webrtcNumIters (2 * audio.length) (2 * frameSize rate) = 0 := by
    unfold webrtcNumIters
    rw [if_pos (by omega)]
  have hw : check_webrtc_vad oracle audio.length rate = false := by
    unfold check_webrtc_vad
    rw [if_pos hrate]
    simp [webrtcFrameStarts, hiter]
  unfold VoiceActivityDetector.is_speech
  by_cases h1 : check_energy audio <;> by_cases h2 : check_zcr audio <;>
    simp [h1, h2, hw]

set_option maxRecDepth 10000

/-- Witness for C9: 100 samples of amplitude 10000 at 8 kHz pass the
energy and zero-crossing tiers, yet `is_speech` is `false` even with a
frame classifier that always answers "speech". -/
theorem is_speech_short_audio_false_witness :
    check_energy (List.replicate 100 10000) = true ∧
    check_zcr (List.replicate 100 10000) = true ∧
    VoiceActivityDetector.is_speech (fun _ => some true)
      (List.replicate 100 10000) 8000 = false := by
  refine ⟨by decide, by decide, ?_⟩
  exact is_speech_short_audio_false (fun _ => some true)
    (List.replicate 100 10000) 8000 (by decide) (by decide)

/-- Writing one key of an association list leaves every other key's
lookup unchanged and makes the written key's lookup return the new
value. -/
theorem findAssoc_setAssoc {β : Type} (l : List (String × β))
    (k k' : String) (v : β) :
    findAssoc (setAssoc l k v) k' =
      if k = k' then some v else findAssoc l k' := by
  induction l with
  | nil =>
    by_cases h : k = k' <;> simp [setAssoc, findAssoc, h]
  | cons p rest ih =>
    obtain ⟨k0, v0⟩ := p
    by_cases h0 : k0 = k
    · subst h0
      by_cases h : k0 = k' <;> simp [setAssoc, findAssoc, h]
    · by_cases h : k0 = k'
      · subst h
        have hk : ¬ k = k0 := fun hh => h0 hh.symm
        simp [setAssoc, findAssoc, h0, hk]
      · simp [setAssoc, findAssoc, h0, h, ih]

/-- Deleting a key removes its binding. -/
theorem findAssoc_delAssoc_self {β : Type} (l : List (String × β))
    (k : String) :
    findAssoc (delAssoc l k) k = none := by
  induction l with
  | nil => simp [delAssoc, findAssoc]
  | cons p rest ih =>
    obtain ⟨k0, v0⟩ := p
    by_cases h : k0 = k
    · simpa [delAssoc, List.filter, h] using ih
    · simpa [delAssoc, List.filter, h, findAssoc] using ih

/-- `get_context` never drops a stored context. -/
theorem get_context_preserves (cm : ContextManager) (sid sid2 : String)
    (now : ℚ) (h : findAssoc cm.contexts sid ≠ none) :
    findAssoc (cm.get_context sid2 now).2.contexts sid ≠ none := by
  unfold ContextManager.get_context
  cases hf : findAssoc cm.contexts sid2 with
  | some c => simpa using h
  | none =>
    simp only [findAssoc_setAssoc]
    by_cases he : sid2 = sid <;> simp [he, h]

/-- C10: looking up a call id with no stored context silently creates
and stores a fresh context — empty history, empty metadata, turn counter
zero, the id recorded — and that context persists through `add_turn`,
`update_metadata` and `get_summary` on arbitrary ids until
`clear_context` deletes it. -/
theorem get_context_autocreates (cm : ContextManager) (sid : String)
    (now : ℚ) (h : findAssoc cm.contexts sid = none) :
    (cm.get_context sid now).1 =
      { call_sid := some sid, start_time := now, history := [],
        metadata := [], turn_count := 0 } ∧
    findAssoc (cm.get_context sid now).2.contexts sid =
      some { call_sid := some sid, start_time := now, history := [],
             metadata := [], turn_count := 0 } ∧
    (∀ (sid2 u a : String) (now2 : ℚ),
      findAssoc (((cm.get_context sid now).2.add_turn sid2 u a now2)).contexts
        sid ≠ none) ∧
    (∀ (sid2 k v : String) (now2 : ℚ),
      findAssoc
        (((cm.get_context sid now).2.update_metadata sid2 k v now2)).contexts
        sid ≠ none) ∧
    (∀ (sid2 : String) (now2 : ℚ),
      findAssoc ((cm.get_context sid now).2.get_summary sid2 now2).2.contexts
        sid ≠ none) ∧
    findAssoc ((cm.get_context sid now).2.clear_context sid).contexts sid
      = none := by
  have hstored :
      findAssoc (cm.get_context sid now).2.contexts sid =
        some { call_sid := some sid, start_time := now, history := [],
               metadata := [], turn_count := 0 } := by
    unfold ContextManager.get_context
    rw [h]
    simp [findAssoc_setAssoc, createContext]
  have hne : findAssoc (cm.get_context sid now).2.contexts sid ≠ none := by
    rw [hstored]; exact fun hc => Option.noConfusion hc
  refine ⟨?_, hstored, ?_, ?_, ?_, ?_⟩
  · unfold ContextManager.get_context
    rw [h]
    simp [createContext]
  · intro sid2 u a now2
    unfold ContextManager.add_turn
    have hg := get_context_preserves (cm.get_context sid now).2 sid sid2 now2 hne
    simp only [findAssoc_setAssoc]
    by_cases he : sid2 = sid <;> simp [he, hg]
  · intro sid2 k v now2
    unfold ContextManager.update_metadata
    have hg := get_context_preserves (cm.get_context sid now).2 sid sid2 now2 hne
    simp only [findAssoc_setAssoc]
    by_cases he : sid2 = sid <;> simp [he, hg]
  · intro sid2 now2
    unfold ContextManager.get_summary
    exact get_context_preserves (cm.get_context sid now).2 sid sid2 now2 hne
  · unfold ContextManager.clear_context
    exact findAssoc_delAssoc_self _ sid

/-- Witness for C10 on an empty manager and the id `"CA1"`. -/
theorem get_context_autocreates_witness :
    ((ContextManager.mk []).get_context "CA1" 0).1 =
      { call_sid := some "CA1", start_time := 0, history := [],
        metadata := [], turn_count := 0 } ∧
    findAssoc (((ContextManager.mk []).get_context "CA1" 0).2.clear_context
      "CA1").contexts "CA1" = none := by
  have h := get_context_autocreates (ContextManager.mk []) "CA1" 0 rfl
  exact ⟨h.1, h.2.2.2.2.2⟩

end PhoneAI
